import Mathlib

/-!
# Verification of the Optimizely CMP preview webhook handler

Shallow embedding of the webhook endpoint implemented in
`src/pages/cmp-preview-webhook` (the full version with acknowledge and
completion steps): the JSON value model with JavaScript member/index
access and optional chaining, the OAuth token provider with its
module-level cache, the pure preview-URL generator, the two CMP client
calls, and the `POST` handler state machine.

Conventions of the embedding:
* JavaScript values are modelled by `JsValue`; `undefined` and `null`
  are distinct nullish values, truthiness follows JavaScript (`""`, `0`,
  `false`, `null`, `undefined` are falsy).
* A thrown JavaScript exception is an `Except.error` carrying the
  message string of the `Error` object (`TypeError`s carry a fixed
  message; their exact text is irrelevant to the protocol).
* Each outbound `fetch` is resolved by an oracle response (`FetchResp`)
  supplied as a parameter; the list of calls actually issued is returned
  alongside the result, so "zero outbound calls" is a statement about
  that list.
* `Date.now()` is modelled by an integer timestamp parameter; the two
  reads of `Date.now()` inside one `getAccessToken` call are identified,
  which is the standard idealisation and does not affect any claim.
-/

/-- JavaScript runtime values as far as the webhook handler inspects
them: primitives, arrays and objects (objects as association lists in
insertion order, matching `JSON.parse` / object-literal construction). -/
inductive JsValue where
  | null : JsValue
  | undefined : JsValue
  | bool : Bool → JsValue
  | num : Int → JsValue
  | str : String → JsValue
  | arr : List JsValue → JsValue
  | obj : List (String × JsValue) → JsValue

/-- `v` is nullish (`null` or `undefined`): member access on it throws,
and `?.` short-circuits on it. -/
def JsValue.isNullish : JsValue → Bool
  | .null => true
  | .undefined => true
  | _ => false

/-- JavaScript truthiness: `undefined`, `null`, `false`, `0` and `""`
are falsy, everything else (including any object or array) is truthy. -/
def truthy : JsValue → Bool
  | .null => false
  | .undefined => false
  | .bool b => b
  | .num n => n != 0
  | .str s => s != ""
  | .arr _ => true
  | .obj _ => true

/-- The message of the `TypeError` thrown by member or index access on a
nullish base. -/
def jsTypeErrorMsg : String := "TypeError: cannot read properties of nullish value"

/-- Plain member access `v.k`: throws a `TypeError` on a nullish base,
returns the property (or `undefined` when absent) on an object, and
`undefined` on any other base (primitives have no own properties the
handler reads). -/
def jsMember (v : JsValue) (k : String) : Except String JsValue :=
  if v.isNullish then .error jsTypeErrorMsg
  else match v with
    | .obj fields => .ok ((fields.lookup k).getD .undefined)
    | _ => .ok .undefined

/-- Plain index access `v[i]`: throws a `TypeError` on a nullish base,
returns element `i` (or `undefined` past the end) on an array, the
property named `i` on an object, and `undefined` otherwise. -/
def jsIndex (v : JsValue) (i : Nat) : Except String JsValue :=
  if v.isNullish then .error jsTypeErrorMsg
  else match v with
    | .arr xs => .ok ((xs.get? i).getD .undefined)
    | .obj fields => .ok ((fields.lookup (toString i)).getD .undefined)
    | _ => .ok .undefined

/-- Optional member access `v?.k`: `undefined` when the base is nullish
(short-circuit), plain member access otherwise.  Chains in the source in
which every link after a short-circuit point is itself optional are
embedded link by link, which is observationally identical to the
one-shot short-circuit of JavaScript. -/
def optMember (v : JsValue) (k : String) : Except String JsValue :=
  if v.isNullish then .ok .undefined else jsMember v k

/-- String view of a value where the source uses it as a `string`
(template interpolation of an already-validated field). -/
def JsValue.asString : JsValue → String
  | .str s => s
  | _ => ""

/-- Numeric view of a value where the source does arithmetic on it
(`expires_in`). -/
def JsValue.asInt : JsValue → Int
  | .num n => n
  | _ => 0

/-- The result of an outbound `fetch`, as far as the handler inspects
it: `ok` (status in the 2xx range), the status line, the body as text
(read on errors) and the body as parsed JSON (read on token success). -/
structure FetchResp where
  ok : Bool
  status : Nat
  statusText : String
  text : String
  body : JsValue

/-- The module-level token cache entry (`tokenCache`). -/
structure TokenCache where
  accessToken : String
  expiresAt : Int
deriving DecidableEq

/-- `tokenCache && Date.now() < tokenCache.expiresAt`: the cached-token
fast path predicate. -/
def cacheValid (now : Int) (cache : Option TokenCache) : Bool :=
  match cache with
  | some tc => decide (now < tc.expiresAt)
  | none => false

/-- The token-endpoint fetch and response handling of `getAccessToken`
(everything after the cache check): on non-2xx throw, on a body whose
`access_token` or `expires_in` is falsy throw, otherwise overwrite the
cache with a 300-second early-expiry buffer and return the token.
Returns the result together with the cache as left by the call. -/
def fetchToken (now : Int) (cache : Option TokenCache) (r : FetchResp) :
    Except String String × Option TokenCache :=
  if r.ok = false then
    (.error ("Failed to obtain access token: " ++ toString r.status ++ " " ++
      r.statusText ++ ". Details: " ++ r.text), cache)
  else
    match jsMember r.body "access_token", jsMember r.body "expires_in" with
    | .error e, _ => (.error e, cache)
    | .ok _, .error e => (.error e, cache)
    | .ok accessTok, .ok expiresIn =>
      if !truthy accessTok || !truthy expiresIn then
        (.error "Invalid token response: missing access_token or expires_in", cache)
      else
        let expiresInMs := (expiresIn.asInt - 300) * 1000
        (.ok accessTok.asString,
         some { accessToken := accessTok.asString, expiresAt := now + expiresInMs })

/-- `getAccessToken()`: return the cached token while `now < expiresAt`,
otherwise fetch a fresh one.  The third component counts the token
requests issued by this call (0 on the cached path, 1 otherwise). -/
def getAccessToken (now : Int) (cache : Option TokenCache) (r : FetchResp) :
    Except String String × Option TokenCache × Nat :=
  match cache with
  | some tc =>
    if now < tc.expiresAt then (.ok tc.accessToken, some tc, 0)
    else ((fetchToken now (some tc) r).1, (fetchToken now (some tc) r).2, 1)
  | none => ((fetchToken now none r).1, (fetchToken now none r).2, 1)

/-- The five fixed preview channel names, in source order. -/
def previewTypes : List String := ["default", "mobile", "desktop", "tablet", "signage"]

/-- `generatePreviewUrls(contentId)`: for each channel emit
`{CMP_PREVIEW_URL}/preview/{channel}/{contentId}`, keyed by channel, in
source order.  Pure: no I/O and no failure path. -/
def generatePreviewUrls (previewBaseUrl contentId : String) : List (String × String) :=
  previewTypes.map (fun t => (t, previewBaseUrl ++ "/preview/" ++ t ++ "/" ++ contentId))

/-- Outbound HTTP calls observable from the handler. -/
inductive Call where
  | tokenFetch : Call
  | acknowledge : Call
  | complete : Call
deriving DecidableEq

/-- `true` on the two protocol calls (acknowledge, complete), `false` on
token fetches. -/
def isProtoCall : Call → Bool
  | .tokenFetch => false
  | _ => true

/-- `acknowledgePreview(contentId, versionId, previewId, acknowledgedBy,
contentHash)`: obtain a token (cached or fresh), POST the acknowledgment
and throw on a non-2xx response.  Oracle `tokenResp` resolves the token
fetch (if issued) and `ackResp` the acknowledge POST.  Returns the
result, the cache as left by the call and the calls issued. -/
def acknowledgePreview (now : Int) (cache : Option TokenCache)
    (tokenResp ackResp : FetchResp) :
    Except String Unit × Option TokenCache × List Call :=
  match getAccessToken now cache tokenResp with
  | (.error e, cache1, n) => (.error e, cache1, List.replicate n .tokenFetch)
  | (.ok _, cache1, n) =>
    let calls := List.replicate n Call.tokenFetch ++ [Call.acknowledge]
    if ackResp.ok then (.ok (), cache1, calls)
    else
      (.error ("Failed to acknowledge preview: " ++ toString ackResp.status ++ " " ++
        ackResp.statusText ++ ". Details: " ++ ackResp.text), cache1, calls)

/-- `submitPreviewCompletion(contentId, versionId, previewId,
keyedPreviews)`: obtain a token (cached or fresh), POST the completion
and throw on a non-2xx response.  Same shape as `acknowledgePreview`. -/
def submitPreviewCompletion (now : Int) (cache : Option TokenCache)
    (tokenResp compResp : FetchResp) :
    Except String Unit × Option TokenCache × List Call :=
  match getAccessToken now cache tokenResp with
  | (.error e, cache1, n) => (.error e, cache1, List.replicate n .tokenFetch)
  | (.ok _, cache1, n) =>
    let calls := List.replicate n Call.tokenFetch ++ [Call.complete]
    if compResp.ok then (.ok (), cache1, calls)
    else
      (.error ("Failed to submit preview completion: " ++ toString compResp.status ++ " " ++
        compResp.statusText ++ ". Details: " ++ compResp.text), cache1, calls)

/-- `data?.assets?.structured_contents[0]`: the shared head of the four
structured-content extraction chains.  The two leading accesses are
optional, the index `[0]` is not — it throws when `structured_contents`
is nullish (in particular absent) while `assets` is not. -/
def structuredContent0 (data : JsValue) : Except String JsValue :=
  if data.isNullish then .ok .undefined
  else match jsMember data "assets" with
    | .error e => .error e
    | .ok assets =>
      if assets.isNullish then .ok .undefined
      else match jsMember assets "structured_contents" with
        | .error e => .error e
        | .ok sc => jsIndex sc 0

/-- `data?.assets?.structured_contents[0]?.id` -/
def extractContentId (data : JsValue) : Except String JsValue := do
  let elem ← structuredContent0 data
  optMember elem "id"

/-- `data?.assets?.structured_contents[0]?.version_id` -/
def extractVersionId (data : JsValue) : Except String JsValue := do
  let elem ← structuredContent0 data
  optMember elem "version_id"

/-- `data?.preview_id` -/
def extractPreviewId (data : JsValue) : Except String JsValue :=
  optMember data "preview_id"

/-- `data?.assets?.structured_contents[0]?.content_body?.updated_by` -/
def extractUpdatedBy (data : JsValue) : Except String JsValue := do
  let elem ← structuredContent0 data
  let cb ← optMember elem "content_body"
  optMember cb "updated_by"

/-- `data?.assets?.structured_contents[0]?.content_body?.fields_version?.content_hash` -/
def extractContentHash (data : JsValue) : Except String JsValue := do
  let elem ← structuredContent0 data
  let cb ← optMember elem "content_body"
  let fv ← optMember cb "fields_version"
  optMember fv "content_hash"

/-- The five extraction statements of the handler, in source order; the
first thrown `TypeError` aborts the sequence. -/
def extractFields (data : JsValue) :
    Except String (JsValue × JsValue × JsValue × JsValue × JsValue) := do
  let contentId ← extractContentId data
  let versionId ← extractVersionId data
  let previewId ← extractPreviewId data
  let updatedBy ← extractUpdatedBy data
  let contentHash ← extractContentHash data
  return (contentId, versionId, previewId, updatedBy, contentHash)

/-- Negation of `!contentId || !versionId || !previewId || !updatedBy ||
!contentHash`: all five required fields truthy. -/
def allTruthy (f : JsValue × JsValue × JsValue × JsValue × JsValue) : Bool :=
  truthy f.1 && truthy f.2.1 && truthy f.2.2.1 && truthy f.2.2.2.1 && truthy f.2.2.2.2

/-- An HTTP response of the handler: status code and JSON body (the
object passed to `JSON.stringify`; every response also carries the
`Content-Type: application/json` header, not modelled separately). -/
structure HttpResponse where
  status : Nat
  body : JsValue

/-- The literal 400 error message naming all five required fields. -/
def missingFieldsMsg : String :=
  "Missing required fields: contentId, versionId, previewId, updatedBy, or contentHash"

/-- A `{ error }` response body. -/
def simpleErrorBody (msg : String) : JsValue :=
  .obj [("error", .str msg)]

/-- A `{ error, details }` response body. -/
def errorBody (msg details : String) : JsValue :=
  .obj [("error", .str msg), ("details", .str details)]

/-- The 200 success body of the handler. -/
def successBody (contentId versionId previewId : JsValue)
    (keyedPreviews : List (String × String)) : JsValue :=
  .obj [("message", .str "Webhook received, preview acknowledged and completed successfully"),
        ("acknowledged", .bool true),
        ("completed", .bool true),
        ("contentId", contentId),
        ("versionId", versionId),
        ("previewId", previewId),
        ("keyedPreviews", .obj (keyedPreviews.map (fun p => (p.1, JsValue.str p.2))))]

/-- The request body after the raw-text read and the `JSON.parse`
attempt: empty, non-empty but unparseable, or parsed to a value. -/
inductive ParsedBody where
  | empty : ParsedBody
  | malformed : ParsedBody
  | parsed : JsValue → ParsedBody

/-- The oracle for one request: the `Date.now()` timestamps and fetch
responses for the acknowledge phase and the completion phase. -/
structure World where
  nowAck : Int
  ackTokenResp : FetchResp
  ackResp : FetchResp
  nowComp : Int
  compTokenResp : FetchResp
  compResp : FetchResp

/-- The handler body from field extraction on (everything after the
parse step), with `data` the value of `JSON.parse(rawBody).data` (or
`null` for an empty body): validate the five fields, acknowledge,
generate URLs, complete, and map every outcome to a response.  A thrown
`TypeError` from the unguarded extraction index is caught by the
top-level `catch` and becomes the 500 `Failed to process webhook`
response. -/
def postAfterParse (previewBaseUrl : String) (data : JsValue)
    (cache : Option TokenCache) (w : World) :
    HttpResponse × Option TokenCache × List Call :=
  match extractFields data with
  | .error e => (⟨500, errorBody "Failed to process webhook" e⟩, cache, [])
  | .ok fields =>
    if allTruthy fields then
      match acknowledgePreview w.nowAck cache w.ackTokenResp w.ackResp with
      | (.error e, cache1, calls1) =>
        (⟨500, errorBody "Failed to acknowledge preview" e⟩, cache1, calls1)
      | (.ok _, cache1, calls1) =>
        let keyedPreviews := generatePreviewUrls previewBaseUrl fields.1.asString
        match submitPreviewCompletion w.nowComp cache1 w.compTokenResp w.compResp with
        | (.error e, cache2, calls2) =>
          (⟨500, errorBody "Failed to submit preview completion" e⟩, cache2, calls1 ++ calls2)
        | (.ok _, cache2, calls2) =>
          (⟨200, successBody fields.1 fields.2.1 fields.2.2.1 keyedPreviews⟩,
           cache2, calls1 ++ calls2)
    else
      (⟨400, simpleErrorBody missingFieldsMsg⟩, cache, [])

/-- The `POST` route handler.  An empty body skips `JSON.parse` and
proceeds with `data = null`; a parse failure — including the `TypeError`
from `.data` when the parsed document is `null` — is caught by the inner
`catch` and answered with 400 `Invalid JSON payload`; otherwise the
handler proceeds with `JSON.parse(rawBody).data`. -/
def POST (previewBaseUrl : String) (body : ParsedBody)
    (cache : Option TokenCache) (w : World) :
    HttpResponse × Option TokenCache × List Call :=
  match body with
  | .malformed => (⟨400, simpleErrorBody "Invalid JSON payload"⟩, cache, [])
  | .empty => postAfterParse previewBaseUrl .null cache w
  | .parsed v =>
    match jsMember v "data" with
    | .error _ => (⟨400, simpleErrorBody "Invalid JSON payload"⟩, cache, [])
    | .ok data => postAfterParse previewBaseUrl data cache w

/-- Sample oracle values used by the concrete witnesses below. -/
def sampleTokenResp : FetchResp :=
  ⟨true, 200, "OK", "", .obj [("access_token", .str "t"), ("expires_in", .num 3600)]⟩

/-- A 2xx response for the acknowledge / complete endpoints. -/
def sampleOkResp : FetchResp := ⟨true, 200, "OK", "", .null⟩

/-- A non-2xx response for any endpoint. -/
def sampleFailResp : FetchResp := ⟨false, 503, "Service Unavailable", "upstream down", .null⟩

/-- A world in which every upstream call succeeds. -/
def sampleGoodWorld : World :=
  ⟨0, sampleTokenResp, sampleOkResp, 1, sampleTokenResp, sampleOkResp⟩

/-- Every error exit of the fetch-and-cache stage leaves the cache as it
received it: the source throws before the assignment to `tokenCache`. -/
theorem fetchToken_error_preserves_cache (now : Int) (cache : Option TokenCache)
    (r : FetchResp) (e : String)
    (h : (fetchToken now cache r).1 = .error e) :
    (fetchToken now cache r).2 = cache := by
  unfold fetchToken at h ⊢
  by_cases hok : r.ok = false
  · simp [hok]
  · simp only [if_neg hok] at h ⊢
    rcases h1 : jsMember r.body "access_token" with e1 | a
    · simp [h1]
    · rcases h2 : jsMember r.body "expires_in" with e2 | b
      · simp [h1, h2]
      · simp only [h1, h2] at h ⊢
        by_cases ht : (!truthy a || !truthy b) = true
        · simp only [if_pos ht]
        · simp only [if_neg ht] at h
          exact absurd h (by simp)

/-- Normal form of `getAccessToken` on a cache miss. -/
theorem getAccessToken_miss_eq (now : Int) (cache : Option TokenCache) (r : FetchResp)
    (hnv : cacheValid now cache = false) :
    getAccessToken now cache r = ((fetchToken now cache r).1, (fetchToken now cache r).2, 1) := by
  cases cache with
  | none => rfl
  | some tc =>
    simp only [cacheValid, decide_eq_false_iff_not] at hnv
    simp [getAccessToken, hnv]

/-- Claim C5: while a cache entry exists with `now < expiresAt`, the
token provider returns the cached access token, issues zero network
requests, and leaves the cache entry unchanged. -/
theorem getAccessToken_cached_hit (now : Int) (tc : TokenCache) (r : FetchResp)
    (h : now < tc.expiresAt) :
    getAccessToken now (some tc) r = (.ok tc.accessToken, some tc, 0) := by
  simp [getAccessToken, h]

/-- Witness for C5 at a concrete cache entry and timestamp. -/
theorem getAccessToken_cached_hit_witness :
    (5 : Int) < (10 : Int) ∧
    getAccessToken 5 (some ⟨"tok", 10⟩) sampleFailResp = (.ok "tok", some ⟨"tok", 10⟩, 0) :=
  ⟨by decide, getAccessToken_cached_hit 5 ⟨"tok", 10⟩ sampleFailResp (by decide)⟩

/-- Claim C10: whenever `getAccessToken` fails — non-2xx from the
authorization server or a payload with a falsy `access_token` or
`expires_in` — the token cache is exactly what it was before the call;
the error is raised before any write to the cache entry. -/
theorem getAccessToken_failure_preserves_cache (now : Int) (cache : Option TokenCache)
    (r : FetchResp) (e : String)
    (h : (getAccessToken now cache r).1 = .error e) :
    (getAccessToken now cache r).2.1 = cache := by
  cases cache with
  | none => exact fetchToken_error_preserves_cache now none r e h
  | some tc =>
    by_cases hlt : now < tc.expiresAt
    · simp [getAccessToken, hlt] at h
    · simp only [getAccessToken, if_neg hlt] at h ⊢
      exact fetchToken_error_preserves_cache now (some tc) r e h

/-- Witness for C10 at a concrete failing (non-2xx) token response. -/
theorem getAccessToken_failure_preserves_cache_witness :
    (getAccessToken 0 none sampleFailResp).1 =
      .error "Failed to obtain access token: 503 Service Unavailable. Details: upstream down" ∧
    (getAccessToken 0 none sampleFailResp).2.1 = none :=
  ⟨rfl, getAccessToken_failure_preserves_cache 0 none sampleFailResp _ rfl⟩

/-- Claim C6: on a cache miss exactly one token request is issued; on a
successful response carrying truthy `access_token` and `expires_in` the
cache is overwritten with `expiresAt = now + (expires_in − 300) × 1000`
and the token is returned; and when `expires_in ≤ 300` the written entry
is already expired at every later instant, so the next use issues a
fetch again rather than failing. -/
theorem getAccessToken_cache_miss (now : Int) (cache : Option TokenCache) (r : FetchResp)
    (hnv : cacheValid now cache = false) :
    (getAccessToken now cache r).2.2 = 1 ∧
    (∀ tok ei, r.ok = true →
      jsMember r.body "access_token" = Except.ok (.str tok) →
      jsMember r.body "expires_in" = Except.ok (.num ei) →
      tok ≠ "" → ei ≠ 0 →
      getAccessToken now cache r =
        (.ok tok, some ⟨tok, now + (ei - 300) * 1000⟩, 1)) ∧
    (∀ (tok : String) (ei : Int), ei ≤ 300 → ∀ now2, now ≤ now2 → ∀ r2,
      cacheValid now2 (some ⟨tok, now + (ei - 300) * 1000⟩) = false ∧
      (getAccessToken now2 (some ⟨tok, now + (ei - 300) * 1000⟩) r2).2.2 = 1) := by
  refine ⟨?_, ?_, ?_⟩
  · rw [getAccessToken_miss_eq now cache r hnv]
  · intro tok ei hok h1 h2 htok hei
    rw [getAccessToken_miss_eq now cache r hnv]
    have hok' : ¬ (r.ok = false) := by simp [hok]
    simp [fetchToken, hok', h1, h2, truthy, htok, hei, JsValue.asString, JsValue.asInt]
  · intro tok ei hei now2 hle r2
    have hnlt : ¬ (now2 < now + (ei - 300) * 1000) := by nlinarith
    constructor
    · simp only [cacheValid, decide_eq_false_iff_not]
      exact hnlt
    · simp [getAccessToken, hnlt]

/-- Witness for C6: concrete cache miss with `expires_in = 200 ≤ 300`;
the written entry is expired immediately and the next call fetches. -/
theorem getAccessToken_cache_miss_witness :
    cacheValid 0 none = false ∧
    (getAccessToken 0 none ⟨true, 200, "OK", "",
        .obj [("access_token", .str "t"), ("expires_in", .num 200)]⟩) =
      (.ok "t", some ⟨"t", 0 + ((200 : Int) - 300) * 1000⟩, 1) ∧
    cacheValid 7 (some ⟨"t", 0 + ((200 : Int) - 300) * 1000⟩) = false ∧
    (getAccessToken 7 (some ⟨"t", 0 + ((200 : Int) - 300) * 1000⟩) sampleFailResp).2.2 = 1 := by
  refine ⟨rfl, ?_, ?_, ?_⟩
  · exact (getAccessToken_cache_miss 0 none _ rfl).2.1 "t" 200 rfl rfl rfl
      (by decide) (by decide)
  · exact ((getAccessToken_cache_miss 0 none ⟨true, 200, "OK", "",
        .obj [("access_token", .str "t"), ("expires_in", .num 200)]⟩ rfl).2.2 "t" 200
        (by decide) 7 (by decide) sampleFailResp).1
  · exact ((getAccessToken_cache_miss 0 none ⟨true, 200, "OK", "",
        .obj [("access_token", .str "t"), ("expires_in", .num 200)]⟩ rfl).2.2 "t" 200
        (by decide) 7 (by decide) sampleFailResp).2

/-- Claim C7: `generatePreviewUrls` yields exactly the five channel keys
`default, mobile, desktop, tablet, signage` in order, and maps each
channel to the preview base URL followed by `/preview/`, the channel and
`/` and the content id.  Determinism and totality are inherent: it is a
plain Lean function of its two string arguments, with no failure path in
its codomain. -/
theorem generatePreviewUrls_channels (previewBaseUrl contentId : String) :
    ((generatePreviewUrls previewBaseUrl contentId).map Prod.fst =
      ["default", "mobile", "desktop", "tablet", "signage"]) ∧
    (generatePreviewUrls previewBaseUrl contentId).lookup "default" =
      some (previewBaseUrl ++ "/preview/" ++ "default" ++ "/" ++ contentId) ∧
    (generatePreviewUrls previewBaseUrl contentId).lookup "mobile" =
      some (previewBaseUrl ++ "/preview/" ++ "mobile" ++ "/" ++ contentId) ∧
    (generatePreviewUrls previewBaseUrl contentId).lookup "desktop" =
      some (previewBaseUrl ++ "/preview/" ++ "desktop" ++ "/" ++ contentId) ∧
    (generatePreviewUrls previewBaseUrl contentId).lookup "tablet" =
      some (previewBaseUrl ++ "/preview/" ++ "tablet" ++ "/" ++ contentId) ∧
    (generatePreviewUrls previewBaseUrl contentId).lookup "signage" =
      some (previewBaseUrl ++ "/preview/" ++ "signage" ++ "/" ++ contentId) :=
  ⟨rfl, rfl, rfl, rfl, rfl, rfl⟩

/-- Claim C9: a request with an empty body skips the JSON-parse step
(no `Invalid JSON payload` response is reachable) and is answered with
the 400 missing-required-fields error, with zero outbound calls and the
cache untouched — for every cache state and every world. -/
theorem webhook_empty_body (previewBaseUrl : String) (cache : Option TokenCache) (w : World) :
    POST previewBaseUrl .empty cache w =
      (⟨400, simpleErrorBody missingFieldsMsg⟩, cache, []) := rfl

/-- Token fetches contribute nothing to the protocol-call trace. -/
theorem filter_replicate_tokenFetch (n : Nat) :
    (List.replicate n Call.tokenFetch).filter isProtoCall = [] := by
  induction n with
  | zero => rfl
  | succ k ih => simp [List.replicate_succ, List.filter_cons, isProtoCall, ih]

/-- Normal form of `acknowledgePreview` when the token step succeeds and
the acknowledge endpoint answers 2xx. -/
theorem acknowledgePreview_ok_eq (now : Int) (cache : Option TokenCache)
    (tr ar : FetchResp) (t : String)
    (htok : (getAccessToken now cache tr).1 = .ok t) (hok : ar.ok = true) :
    acknowledgePreview now cache tr ar =
      (.ok (), (getAccessToken now cache tr).2.1,
        List.replicate (getAccessToken now cache tr).2.2 Call.tokenFetch ++
          [Call.acknowledge]) := by
  rcases hg : getAccessToken now cache tr with ⟨res, c1, n⟩
  rw [hg] at htok
  have hres : res = Except.ok t := htok
  subst hres
  simp [acknowledgePreview, hg, hok]

/-- Normal form of `acknowledgePreview` when the token step succeeds and
the acknowledge endpoint answers non-2xx: the thrown message carries the
upstream status line and body text. -/
theorem acknowledgePreview_fail_eq (now : Int) (cache : Option TokenCache)
    (tr ar : FetchResp) (t : String)
    (htok : (getAccessToken now cache tr).1 = .ok t) (hfail : ar.ok = false) :
    acknowledgePreview now cache tr ar =
      (.error ("Failed to acknowledge preview: " ++ toString ar.status ++ " " ++
          ar.statusText ++ ". Details: " ++ ar.text),
       (getAccessToken now cache tr).2.1,
       List.replicate (getAccessToken now cache tr).2.2 Call.tokenFetch ++
         [Call.acknowledge]) := by
  rcases hg : getAccessToken now cache tr with ⟨res, c1, n⟩
  rw [hg] at htok
  have hres : res = Except.ok t := htok
  subst hres
  simp [acknowledgePreview, hg, hfail]

/-- Normal form of `submitPreviewCompletion` when the token step
succeeds and the completion endpoint answers 2xx. -/
theorem submitPreviewCompletion_ok_eq (now : Int) (cache : Option TokenCache)
    (tr cr : FetchResp) (t : String)
    (htok : (getAccessToken now cache tr).1 = .ok t) (hok : cr.ok = true) :
    submitPreviewCompletion now cache tr cr =
      (.ok (), (getAccessToken now cache tr).2.1,
        List.replicate (getAccessToken now cache tr).2.2 Call.tokenFetch ++
          [Call.complete]) := by
  rcases hg : getAccessToken now cache tr with ⟨res, c1, n⟩
  rw [hg] at htok
  have hres : res = Except.ok t := htok
  subst hres
  simp [submitPreviewCompletion, hg, hok]

/-- Normal form of `submitPreviewCompletion` when the token step
succeeds and the completion endpoint answers non-2xx. -/
theorem submitPreviewCompletion_fail_eq (now : Int) (cache : Option TokenCache)
    (tr cr : FetchResp) (t : String)
    (htok : (getAccessToken now cache tr).1 = .ok t) (hfail : cr.ok = false) :
    submitPreviewCompletion now cache tr cr =
      (.error ("Failed to submit preview completion: " ++ toString cr.status ++ " " ++
          cr.statusText ++ ". Details: " ++ cr.text),
       (getAccessToken now cache tr).2.1,
       List.replicate (getAccessToken now cache tr).2.2 Call.tokenFetch ++
         [Call.complete]) := by
  rcases hg : getAccessToken now cache tr with ⟨res, c1, n⟩
  rw [hg] at htok
  have hres : res = Except.ok t := htok
  subst hres
  simp [submitPreviewCompletion, hg, hfail]

/-- The sample success payload of the spec: `data` value. -/
def sampleData : JsValue :=
  .obj [("preview_id", .str "p1"),
        ("assets", .obj [("structured_contents", .arr [
          .obj [("id", .str "c1"), ("version_id", .str "v1"),
                ("content_body", .obj [("updated_by", .str "alice"),
                  ("fields_version", .obj [("content_hash", .str "h1")])])]])])]

/-- The sample success payload: the whole parsed document. -/
def samplePayload : JsValue := .obj [("data", sampleData)]

/-- The fields the handler extracts from `sampleData`. -/
def sampleFields : JsValue × JsValue × JsValue × JsValue × JsValue :=
  (.str "c1", .str "v1", .str "p1", .str "alice", .str "h1")

/-- Claim C2: when the five extraction expressions evaluate without
throwing but any of the five required fields is missing or falsy, the
handler answers 400 with the error message naming all five required
field names, issues zero outbound calls (no token fetch, no acknowledge,
no completion) and leaves the cache untouched. -/
theorem webhook_missing_fields (previewBaseUrl : String) (v data : JsValue)
    (cache : Option TokenCache) (w : World)
    (f : JsValue × JsValue × JsValue × JsValue × JsValue)
    (hdata : jsMember v "data" = .ok data)
    (hext : extractFields data = .ok f)
    (hfalsy : allTruthy f = false) :
    POST previewBaseUrl (.parsed v) cache w =
      (⟨400, simpleErrorBody missingFieldsMsg⟩, cache, []) := by
  simp [POST, hdata, postAfterParse, hext, hfalsy]

/-- Witness for C2: a payload carrying only `preview_id`; the other four
fields extract to `undefined`. -/
theorem webhook_missing_fields_witness :
    POST "https://p" (.parsed (.obj [("data", .obj [("preview_id", .str "p1")])])) none
        sampleGoodWorld =
      (⟨400, simpleErrorBody missingFieldsMsg⟩, none, []) :=
  webhook_missing_fields "https://p" (.obj [("data", .obj [("preview_id", .str "p1")])])
    (.obj [("preview_id", .str "p1")]) none sampleGoodWorld
    (.undefined, .undefined, .str "p1", .undefined, .undefined) rfl rfl rfl

/-- Claim C8: when `data.assets` is present (non-nullish) but
`data.assets.structured_contents` is nullish, the unguarded index `[0]`
in the extraction expressions throws; the top-level catch maps this to
500 `Failed to process webhook` — not to the 400 missing-fields
response — with zero outbound calls. -/
theorem webhook_unguarded_index_500 (previewBaseUrl : String)
    (v data assets sc : JsValue) (cache : Option TokenCache) (w : World)
    (hdata : jsMember v "data" = .ok data)
    (hdnn : data.isNullish = false)
    (hassets : jsMember data "assets" = .ok assets)
    (hann : assets.isNullish = false)
    (hsc : jsMember assets "structured_contents" = .ok sc)
    (hscn : sc.isNullish = true) :
    POST previewBaseUrl (.parsed v) cache w =
      (⟨500, errorBody "Failed to process webhook" jsTypeErrorMsg⟩, cache, []) := by
  have hsc0 : structuredContent0 data = .error jsTypeErrorMsg := by
    simp [structuredContent0, hdnn, hassets, hann, hsc, jsIndex, hscn]
  have hext : extractFields data = .error jsTypeErrorMsg := by
    simp [extractFields, extractContentId, hsc0, Except.bind, Bind.bind]
  simp [POST, hdata, postAfterParse, hext]

/-- Witness for C8: `data.assets` is an (empty) object, so
`structured_contents` is `undefined` and the index throws. -/
theorem webhook_unguarded_index_500_witness :
    POST "https://p" (.parsed (.obj [("data", .obj [("assets", .obj [])])])) none
        sampleGoodWorld =
      (⟨500, errorBody "Failed to process webhook" jsTypeErrorMsg⟩, none, []) :=
  webhook_unguarded_index_500 "https://p" (.obj [("data", .obj [("assets", .obj [])])])
    (.obj [("assets", .obj [])]) (.obj []) .undefined none sampleGoodWorld
    rfl rfl rfl rfl rfl rfl

/-- Claim C3: with all five required fields present and truthy and the
token step succeeding, a non-2xx acknowledge response makes the handler
answer 500 with error `Failed to acknowledge preview` and a details
field, and the completion call is never issued. -/
theorem webhook_ack_failure (previewBaseUrl : String) (v data : JsValue)
    (cache : Option TokenCache) (w : World)
    (f : JsValue × JsValue × JsValue × JsValue × JsValue) (t : String)
    (hdata : jsMember v "data" = .ok data)
    (hext : extractFields data = .ok f)
    (htruthy : allTruthy f = true)
    (htok : (getAccessToken w.nowAck cache w.ackTokenResp).1 = .ok t)
    (hfail : w.ackResp.ok = false) :
    (POST previewBaseUrl (.parsed v) cache w).1.status = 500 ∧
    (POST previewBaseUrl (.parsed v) cache w).1.body =
      errorBody "Failed to acknowledge preview"
        ("Failed to acknowledge preview: " ++ toString w.ackResp.status ++ " " ++
          w.ackResp.statusText ++ ". Details: " ++ w.ackResp.text) ∧
    Call.complete ∉ (POST previewBaseUrl (.parsed v) cache w).2.2 ∧
    (POST previewBaseUrl (.parsed v) cache w).2.2.filter isProtoCall =
      [Call.acknowledge] := by
  have hEq := acknowledgePreview_fail_eq w.nowAck cache w.ackTokenResp w.ackResp t htok hfail
  have hPost : POST previewBaseUrl (.parsed v) cache w =
      (⟨500, errorBody "Failed to acknowledge preview"
          ("Failed to acknowledge preview: " ++ toString w.ackResp.status ++ " " ++
            w.ackResp.statusText ++ ". Details: " ++ w.ackResp.text)⟩,
       (getAccessToken w.nowAck cache w.ackTokenResp).2.1,
       List.replicate (getAccessToken w.nowAck cache w.ackTokenResp).2.2 Call.tokenFetch ++
         [Call.acknowledge]) := by
    simp [POST, hdata, postAfterParse, hext, htruthy, hEq]
  rw [hPost]
  refine ⟨rfl, rfl, ?_, ?_⟩
  · simp [List.mem_append, List.mem_replicate]
  · simp [List.filter_append, filter_replicate_tokenFetch, List.filter_cons, isProtoCall]

/-- Witness for C3: the sample payload against a world whose acknowledge
endpoint answers 503. -/
theorem webhook_ack_failure_witness :
    (POST "https://p" (.parsed samplePayload) none
        ⟨0, sampleTokenResp, sampleFailResp, 1, sampleTokenResp, sampleOkResp⟩).1.status = 500 ∧
    (POST "https://p" (.parsed samplePayload) none
        ⟨0, sampleTokenResp, sampleFailResp, 1, sampleTokenResp, sampleOkResp⟩).1.body =
      errorBody "Failed to acknowledge preview"
        ("Failed to acknowledge preview: " ++ toString (503 : Nat) ++ " " ++
          "Service Unavailable" ++ ". Details: " ++ "upstream down") ∧
    Call.complete ∉ (POST "https://p" (.parsed samplePayload) none
        ⟨0, sampleTokenResp, sampleFailResp, 1, sampleTokenResp, sampleOkResp⟩).2.2 ∧
    (POST "https://p" (.parsed samplePayload) none
        ⟨0, sampleTokenResp, sampleFailResp, 1, sampleTokenResp, sampleOkResp⟩).2.2.filter
        isProtoCall = [Call.acknowledge] :=
  webhook_ack_failure "https://p" samplePayload sampleData none
    ⟨0, sampleTokenResp, sampleFailResp, 1, sampleTokenResp, sampleOkResp⟩
    sampleFields "t" rfl rfl rfl rfl rfl

/-- Claim C4: with all five required fields truthy, the acknowledge call
succeeding, and the completion token step succeeding, a non-2xx
completion response makes the handler answer 500 with error `Failed to
submit preview completion` and a details field, while the acknowledge
call has already been issued; the protocol-call trace is exactly
acknowledge followed by the failed completion — no compensating call of
any kind follows. -/
theorem webhook_completion_failure (previewBaseUrl : String) (v data : JsValue)
    (cache : Option TokenCache) (w : World)
    (f : JsValue × JsValue × JsValue × JsValue × JsValue) (t1 t2 : String)
    (hdata : jsMember v "data" = .ok data)
    (hext : extractFields data = .ok f)
    (htruthy : allTruthy f = true)
    (htok1 : (getAccessToken w.nowAck cache w.ackTokenResp).1 = .ok t1)
    (hack : w.ackResp.ok = true)
    (htok2 : (getAccessToken w.nowComp (getAccessToken w.nowAck cache w.ackTokenResp).2.1
        w.compTokenResp).1 = .ok t2)
    (hfail : w.compResp.ok = false) :
    (POST previewBaseUrl (.parsed v) cache w).1.status = 500 ∧
    (POST previewBaseUrl (.parsed v) cache w).1.body =
      errorBody "Failed to submit preview completion"
        ("Failed to submit preview completion: " ++ toString w.compResp.status ++ " " ++
          w.compResp.statusText ++ ". Details: " ++ w.compResp.text) ∧
    Call.acknowledge ∈ (POST previewBaseUrl (.parsed v) cache w).2.2 ∧
    (POST previewBaseUrl (.parsed v) cache w).2.2.filter isProtoCall =
      [Call.acknowledge, Call.complete] := by
  have hackEq := acknowledgePreview_ok_eq w.nowAck cache w.ackTokenResp w.ackResp t1 htok1 hack
  have hcompEq := submitPreviewCompletion_fail_eq w.nowComp
    (getAccessToken w.nowAck cache w.ackTokenResp).2.1 w.compTokenResp w.compResp t2 htok2 hfail
  have hPost : POST previewBaseUrl (.parsed v) cache w =
      (⟨500, errorBody "Failed to submit preview completion"
          ("Failed to submit preview completion: " ++ toString w.compResp.status ++ " " ++
            w.compResp.statusText ++ ". Details: " ++ w.compResp.text)⟩,
       (getAccessToken w.nowComp (getAccessToken w.nowAck cache w.ackTokenResp).2.1
          w.compTokenResp).2.1,
       (List.replicate (getAccessToken w.nowAck cache w.ackTokenResp).2.2 Call.tokenFetch ++
          [Call.acknowledge]) ++
       (List.replicate (getAccessToken w.nowComp
            (getAccessToken w.nowAck cache w.ackTokenResp).2.1 w.compTokenResp).2.2
          Call.tokenFetch ++ [Call.complete])) := by
    simp [POST, hdata, postAfterParse, hext, htruthy, hackEq, hcompEq]
  rw [hPost]
  refine ⟨rfl, rfl, ?_, ?_⟩
  · simp [List.mem_append]
  · simp [List.filter_append, filter_replicate_tokenFetch, List.filter_cons, isProtoCall]

/-- Witness for C4: the sample payload against a world whose completion
endpoint answers 503 after a successful acknowledge. -/
theorem webhook_completion_failure_witness :
    (POST "https://p" (.parsed samplePayload) none
        ⟨0, sampleTokenResp, sampleOkResp, 1, sampleTokenResp, sampleFailResp⟩).1.status = 500 ∧
    (POST "https://p" (.parsed samplePayload) none
        ⟨0, sampleTokenResp, sampleOkResp, 1, sampleTokenResp, sampleFailResp⟩).1.body =
      errorBody "Failed to submit preview completion"
        ("Failed to submit preview completion: " ++ toString (503 : Nat) ++ " " ++
          "Service Unavailable" ++ ". Details: " ++ "upstream down") ∧
    Call.acknowledge ∈ (POST "https://p" (.parsed samplePayload) none
        ⟨0, sampleTokenResp, sampleOkResp, 1, sampleTokenResp, sampleFailResp⟩).2.2 ∧
    (POST "https://p" (.parsed samplePayload) none
        ⟨0, sampleTokenResp, sampleOkResp, 1, sampleTokenResp, sampleFailResp⟩).2.2.filter
        isProtoCall = [Call.acknowledge, Call.complete] :=
  webhook_completion_failure "https://p" samplePayload sampleData none
    ⟨0, sampleTokenResp, sampleOkResp, 1, sampleTokenResp, sampleFailResp⟩
    sampleFields "t" "t" rfl rfl rfl rfl rfl rfl rfl

/-- Claim C1: for a parsed payload whose five required fields are all
truthy, when both token acquisitions succeed and both the acknowledge
and the completion endpoints answer 2xx, the handler issues exactly one
acknowledge call followed by exactly one completion call and responds
200 with a body carrying `message`, `acknowledged: true`,
`completed: true`, `contentId`, `versionId`, `previewId` and
`keyedPreviews`. -/
theorem webhook_success_flow (previewBaseUrl : String) (v data : JsValue)
    (cache : Option TokenCache) (w : World)
    (f : JsValue × JsValue × JsValue × JsValue × JsValue) (t1 t2 : String)
    (hdata : jsMember v "data" = .ok data)
    (hext : extractFields data = .ok f)
    (htruthy : allTruthy f = true)
    (htok1 : (getAccessToken w.nowAck cache w.ackTokenResp).1 = .ok t1)
    (hack : w.ackResp.ok = true)
    (htok2 : (getAccessToken w.nowComp (getAccessToken w.nowAck cache w.ackTokenResp).2.1
        w.compTokenResp).1 = .ok t2)
    (hcomp : w.compResp.ok = true) :
    (POST previewBaseUrl (.parsed v) cache w).1.status = 200 ∧
    (POST previewBaseUrl (.parsed v) cache w).1.body =
      successBody f.1 f.2.1 f.2.2.1 (generatePreviewUrls previewBaseUrl f.1.asString) ∧
    (POST previewBaseUrl (.parsed v) cache w).2.2.filter isProtoCall =
      [Call.acknowledge, Call.complete] := by
  have hackEq := acknowledgePreview_ok_eq w.nowAck cache w.ackTokenResp w.ackResp t1 htok1 hack
  have hcompEq := submitPreviewCompletion_ok_eq w.nowComp
    (getAccessToken w.nowAck cache w.ackTokenResp).2.1 w.compTokenResp w.compResp t2 htok2 hcomp
  have hPost : POST previewBaseUrl (.parsed v) cache w =
      (⟨200, successBody f.1 f.2.1 f.2.2.1
          (generatePreviewUrls previewBaseUrl f.1.asString)⟩,
       (getAccessToken w.nowComp (getAccessToken w.nowAck cache w.ackTokenResp).2.1
          w.compTokenResp).2.1,
       (List.replicate (getAccessToken w.nowAck cache w.ackTokenResp).2.2 Call.tokenFetch ++
          [Call.acknowledge]) ++
       (List.replicate (getAccessToken w.nowComp
            (getAccessToken w.nowAck cache w.ackTokenResp).2.1 w.compTokenResp).2.2
          Call.tokenFetch ++ [Call.complete])) := by
    simp [POST, hdata, postAfterParse, hext, htruthy, hackEq, hcompEq]
  rw [hPost]
  refine ⟨rfl, rfl, ?_⟩
  simp [List.filter_append, filter_replicate_tokenFetch, List.filter_cons, isProtoCall]

/-- Witness for C1: the sample payload of the spec against a world in
which every upstream call succeeds. -/
theorem webhook_success_flow_witness :
    (POST "https://p" (.parsed samplePayload) none sampleGoodWorld).1.status = 200 ∧
    (POST "https://p" (.parsed samplePayload) none sampleGoodWorld).1.body =
      successBody (.str "c1") (.str "v1") (.str "p1") (generatePreviewUrls "https://p" "c1") ∧
    (POST "https://p" (.parsed samplePayload) none sampleGoodWorld).2.2.filter isProtoCall =
      [Call.acknowledge, Call.complete] :=
  webhook_success_flow "https://p" samplePayload sampleData none sampleGoodWorld
    sampleFields "t" "t" rfl rfl rfl rfl rfl rfl rfl
